import Mathlib

/-!
# Verification of the RodRaiDee car total-cost-of-ownership calculator

Shallow embedding of `src/app/page.tsx`.

Modelling conventions:
* JavaScript numbers are modelled as exact rationals (`ℚ`); IEEE-754 rounding is
  abstracted away, but the special values produced by JavaScript arithmetic
  (division by zero, `NaN` propagation) are modelled explicitly by the `JsVal`
  type, since the source performs an unguarded division.
* React state (`useState<CarInput[]>`) is modelled as a `List CarInput`; each
  `onChange` handler of the component is embedded as a pure function from the
  old list to the new list, and the set of session states reachable through the
  UI is the inductive relation `Reachable`.
-/

/-- A JavaScript number as relevant to this program: either a finite value
(modelled exactly as a rational) or one of the IEEE special values `Infinity`,
`-Infinity`, `NaN` that JavaScript arithmetic can produce. -/
inductive JsVal where
  | num : ℚ → JsVal
  | inf : JsVal
  | negInf : JsVal
  | nan : JsVal
deriving DecidableEq, Repr

namespace JsVal

/-- JavaScript `+` on the values of `JsVal` (exact on finite operands). -/
def add : JsVal → JsVal → JsVal
  | num a, num b => num (a + b)
  | nan, _ => nan
  | _, nan => nan
  | inf, negInf => nan
  | negInf, inf => nan
  | inf, _ => inf
  | _, inf => inf
  | negInf, _ => negInf
  | _, negInf => negInf

/-- JavaScript `*` on the values of `JsVal` (exact on finite operands). -/
def mul : JsVal → JsVal → JsVal
  | num a, num b => num (a * b)
  | nan, _ => nan
  | _, nan => nan
  | inf, inf => inf
  | inf, negInf => negInf
  | negInf, inf => negInf
  | negInf, negInf => inf
  | inf, num b => if 0 < b then inf else if b < 0 then negInf else nan
  | num a, inf => if 0 < a then inf else if a < 0 then negInf else nan
  | negInf, num b => if 0 < b then negInf else if b < 0 then inf else nan
  | num a, negInf => if 0 < a then negInf else if a < 0 then inf else nan

/-- JavaScript unary minus. -/
def neg : JsVal → JsVal
  | num a => num (-a)
  | inf => negInf
  | negInf => inf
  | nan => nan

/-- JavaScript `-` on the values of `JsVal`. -/
def sub (a b : JsVal) : JsVal := a.add b.neg

end JsVal

/-- JavaScript `/` applied to two finite numbers: a nonzero value divided by
zero gives a signed infinity and `0 / 0` gives `NaN`; otherwise the exact
quotient. -/
def jsDivNum (a b : ℚ) : JsVal :=
  if b = 0 then
    if 0 < a then JsVal.inf else if a < 0 then JsVal.negInf else JsVal.nan
  else JsVal.num (a / b)

/-! ## Types (`type Powertrain`, `type FuelMode`) -/

/-- `type Powertrain = 'ICE' | 'Hybrid' | 'EV'` -/
inductive Powertrain where
  | ICE
  | Hybrid
  | EV
deriving DecidableEq, Repr

/-- `type FuelMode = 'city' | 'highway' | 'custom'` -/
inductive FuelMode where
  | city
  | highway
  | custom
deriving DecidableEq, Repr

/-! ## Preset tables -/

/-- `FUEL_CONSUMPTION_PRESET : Record<FuelMode, Record<Powertrain, number>>` -/
def FUEL_CONSUMPTION_PRESET : FuelMode → Powertrain → ℚ
  | .city, .ICE => 12
  | .city, .Hybrid => 22
  | .city, .EV => 11
  | .highway, .ICE => 15
  | .highway, .Hybrid => 19
  | .highway, .EV => 14
  | .custom, .ICE => 14
  | .custom, .Hybrid => 20
  | .custom, .EV => 12

/-- The per-powertrain cost preset record of the `PRESETS` table. -/
structure CostPreset where
  insurance : ℚ
  maintenance : ℚ
  registration : ℚ
  resalePct : ℚ
  miscellaneous : ℚ
  fuelPerKm : ℚ
  maintenanceAtEnd : ℚ
deriving DecidableEq, Repr

/-- `PRESETS : Record<Powertrain, {...}>` -/
def PRESETS : Powertrain → CostPreset
  | .ICE =>
      { insurance := 22000, maintenance := 8000, registration := 2500,
        resalePct := 30, miscellaneous := 0, fuelPerKm := 11 / 5,
        maintenanceAtEnd := 0 }
  | .Hybrid =>
      { insurance := 22000, maintenance := 8000, registration := 2500,
        resalePct := 30, miscellaneous := 0, fuelPerKm := 8 / 5,
        maintenanceAtEnd := 150000 }
  | .EV =>
      { insurance := 32000, maintenance := 4000, registration := 1000,
        resalePct := 10, miscellaneous := 0, fuelPerKm := 4 / 5,
        maintenanceAtEnd := 300000 }

/-! ## Fuel helper (`calcFuelPerKm`) -/

/-- `calcFuelPerKm(powertrain, fuelPrice, fuelConsumption)`: for EV the
consumption is kWh per 100 km and the result is
`(fuelConsumption / 100) * fuelPrice`; otherwise the source computes the
unguarded division `fuelPrice / fuelConsumption` (km per litre), embedded
through `jsDivNum` to keep JavaScript's division-by-zero behaviour. -/
def calcFuelPerKm (powertrain : Powertrain) (fuelPrice fuelConsumption : ℚ) :
    JsVal :=
  match powertrain with
  | .EV => JsVal.num ((fuelConsumption / 100) * fuelPrice)
  | _ => jsDivNum fuelPrice fuelConsumption

/-! ## Car record (`type CarInput`) -/

/-- `type CarInput`. All user-entered numeric fields are finite numbers; the
cached derived field `fuelPerKm` is stored as a `JsVal` because it is the
result of `calcFuelPerKm`, which can produce `Infinity`. -/
structure CarInput where
  name : String
  powertrain : Powertrain
  carPrice : ℚ
  discount : ℚ
  otherDiscount : ℚ
  resalePct : ℚ
  kmPerYear : ℚ
  years : ℚ
  insurance : ℚ
  maintenance : ℚ
  maintenanceAtEnd : ℚ
  registration : ℚ
  miscellaneous : ℚ
  fuelMode : FuelMode
  fuelConsumption : ℚ
  fuelPrice : ℚ
  fuelPerKm : JsVal
deriving DecidableEq, Repr

/-- `defaultCar(index)`. -/
def defaultCar (index : ℕ) : CarInput :=
  let p := PRESETS Powertrain.ICE
  let fuelConsumption : ℚ := 14
  let fuelPrice : ℚ := 30
  { name := "Car " ++ toString (index + 1),
    powertrain := Powertrain.ICE,
    carPrice := 1000000,
    discount := 0,
    otherDiscount := 0,
    resalePct := p.resalePct,
    kmPerYear := 20000,
    years := 10,
    insurance := p.insurance,
    maintenance := p.maintenance,
    maintenanceAtEnd := p.maintenanceAtEnd,
    registration := p.registration,
    miscellaneous := p.miscellaneous,
    fuelMode := FuelMode.custom,
    fuelConsumption := fuelConsumption,
    fuelPrice := fuelPrice,
    fuelPerKm := calcFuelPerKm Powertrain.ICE fuelPrice fuelConsumption }

/-! ## Cost calculator (`calculate`) -/

/-- The record returned by `calculate`. `netCarPrice` and `resaleValue` only
involve the finite input fields, so they stay in `ℚ`; the other three involve
the cached `fuelPerKm` and are `JsVal`. -/
structure DerivedResult where
  netCarPrice : ℚ
  fuelPerYear : JsVal
  yearlyCost : JsVal
  resaleValue : ℚ
  totalCost : JsVal
deriving DecidableEq, Repr

/-- `calculate(car)`, the pure cost calculator. The four finite annual costs
are summed in `ℚ` (JavaScript adds them left to right, exactly the same sum on
finite values) before the `JsVal` addition of `fuelPerYear`. -/
def calculate (car : CarInput) : DerivedResult :=
  let netCarPrice := car.carPrice - car.discount - car.otherDiscount
  let fuelPerYear := car.fuelPerKm.mul (JsVal.num car.kmPerYear)
  let yearlyCost :=
    (JsVal.num
      (car.insurance + car.maintenance + car.registration +
        car.miscellaneous)).add fuelPerYear
  let resaleValue := car.carPrice * (car.resalePct / 100)
  let totalCost :=
    (((JsVal.num netCarPrice).add
        (yearlyCost.mul (JsVal.num car.years))).add
      (JsVal.num car.maintenanceAtEnd)).sub (JsVal.num resaleValue)
  { netCarPrice := netCarPrice, fuelPerYear := fuelPerYear,
    yearlyCost := yearlyCost, resaleValue := resaleValue,
    totalCost := totalCost }

/-! ## Store operations

`updateCar` and `updateCarBulk` in the source both follow the same pattern:
copy the array, replace the record at `index` by a record derived from the old
one, and store the copy.  `updateCarWith` embeds that pattern; each concrete
`onChange` handler below instantiates it.  The UI only ever produces an index
of an existing card (the handlers live inside `cars.map`), so the
out-of-range branch is never taken; it is defined as the identity. -/

/-- `const next = [...cars]; next[index] = f(next[index]); setCars(next)`. -/
def updateCarWith (cars : List CarInput) (index : ℕ)
    (f : CarInput → CarInput) : List CarInput :=
  match cars[index]? with
  | some c => cars.set index (f c)
  | none => cars

/-- `addCar`: appends `defaultCar(cars.length)`. -/
def addCar (cars : List CarInput) : List CarInput :=
  cars ++ [defaultCar cars.length]

/-- `cars.filter((_, i) => i !== index)` — JavaScript `filter` with the element
index, embedded with an explicit running counter `j`. -/
def filterIdxNe : List CarInput → ℕ → ℕ → List CarInput
  | [], _, _ => []
  | c :: cs, j, index =>
      if j = index then filterIdxNe cs (j + 1) index
      else c :: filterIdxNe cs (j + 1) index

/-- `removeCar(index)`. -/
def removeCar (cars : List CarInput) (index : ℕ) : List CarInput :=
  filterIdxNe cars 0 index

/-- The record update performed by the powertrain `<select>` handler:
overwrite the six preset cost fields, pick the default fuel price
(`pt === 'EV' ? 5 : 30`), look up consumption for the current fuel mode and
the new powertrain, and recompute `fuelPerKm`. -/
def applyPowertrain (pt : Powertrain) (car : CarInput) : CarInput :=
  let p := PRESETS pt
  let fuelPrice : ℚ := if pt = Powertrain.EV then 5 else 30
  let fc := FUEL_CONSUMPTION_PRESET car.fuelMode pt
  { car with
    powertrain := pt,
    insurance := p.insurance,
    maintenance := p.maintenance,
    registration := p.registration,
    resalePct := p.resalePct,
    miscellaneous := p.miscellaneous,
    maintenanceAtEnd := p.maintenanceAtEnd,
    fuelPrice := fuelPrice,
    fuelConsumption := fc,
    fuelPerKm := calcFuelPerKm pt fuelPrice fc }

/-- The powertrain `<select>` `onChange` handler. -/
def selectPowertrain (cars : List CarInput) (i : ℕ) (pt : Powertrain) :
    List CarInput :=
  updateCarWith cars i (applyPowertrain pt)

/-- The record update performed by the fuel-mode `<select>` handler: the
consumption is looked up from `FUEL_CONSUMPTION_PRESET[mode][car.powertrain]`
for every mode (including `custom`), and `fuelPerKm` is recomputed. -/
def applyFuelMode (mode : FuelMode) (car : CarInput) : CarInput :=
  let fc := FUEL_CONSUMPTION_PRESET mode car.powertrain
  { car with
    fuelMode := mode,
    fuelConsumption := fc,
    fuelPerKm := calcFuelPerKm car.powertrain car.fuelPrice fc }

/-- The fuel-mode `<select>` `onChange` handler. -/
def selectFuelMode (cars : List CarInput) (i : ℕ) (mode : FuelMode) :
    List CarInput :=
  updateCarWith cars i (applyFuelMode mode)

/-- The fuel-price `<input type="number">` handler: set `fuelPrice` and
recompute `fuelPerKm` in one bulk update. -/
def setFuelPrice (cars : List CarInput) (i : ℕ) (v : ℚ) : List CarInput :=
  updateCarWith cars i fun c =>
    { c with fuelPrice := v,
             fuelPerKm := calcFuelPerKm c.powertrain v c.fuelConsumption }

/-- The custom fuel-consumption `<input type="number">` handler: set
`fuelConsumption` and recompute `fuelPerKm` in one bulk update. -/
def setFuelConsumption (cars : List CarInput) (i : ℕ) (v : ℚ) :
    List CarInput :=
  updateCarWith cars i fun c =>
    { c with fuelConsumption := v,
             fuelPerKm := calcFuelPerKm c.powertrain c.fuelPrice v }

/-! Single-field `updateCar` handlers (one per input of the card). -/

/-- `updateCar(i, 'name', v)`. -/
def setName (cars : List CarInput) (i : ℕ) (v : String) : List CarInput :=
  updateCarWith cars i fun c => { c with name := v }

/-- `updateCar(i, 'carPrice', v)`. -/
def setCarPrice (cars : List CarInput) (i : ℕ) (v : ℚ) : List CarInput :=
  updateCarWith cars i fun c => { c with carPrice := v }

/-- `updateCar(i, 'discount', v)`. -/
def setDiscount (cars : List CarInput) (i : ℕ) (v : ℚ) : List CarInput :=
  updateCarWith cars i fun c => { c with discount := v }

/-- `updateCar(i, 'otherDiscount', v)`. -/
def setOtherDiscount (cars : List CarInput) (i : ℕ) (v : ℚ) : List CarInput :=
  updateCarWith cars i fun c => { c with otherDiscount := v }

/-- `updateCar(i, 'resalePct', v)`. -/
def setResalePct (cars : List CarInput) (i : ℕ) (v : ℚ) : List CarInput :=
  updateCarWith cars i fun c => { c with resalePct := v }

/-- `updateCar(i, 'kmPerYear', v)`. -/
def setKmPerYear (cars : List CarInput) (i : ℕ) (v : ℚ) : List CarInput :=
  updateCarWith cars i fun c => { c with kmPerYear := v }

/-- `updateCar(i, 'years', v)`. -/
def setYears (cars : List CarInput) (i : ℕ) (v : ℚ) : List CarInput :=
  updateCarWith cars i fun c => { c with years := v }

/-- `updateCar(i, 'insurance', v)`. -/
def setInsurance (cars : List CarInput) (i : ℕ) (v : ℚ) : List CarInput :=
  updateCarWith cars i fun c => { c with insurance := v }

/-- `updateCar(i, 'maintenance', v)`. -/
def setMaintenance (cars : List CarInput) (i : ℕ) (v : ℚ) : List CarInput :=
  updateCarWith cars i fun c => { c with maintenance := v }

/-- `updateCar(i, 'registration', v)`. -/
def setRegistration (cars : List CarInput) (i : ℕ) (v : ℚ) : List CarInput :=
  updateCarWith cars i fun c => { c with registration := v }

/-- `updateCar(i, 'miscellaneous', v)`. -/
def setMiscellaneous (cars : List CarInput) (i : ℕ) (v : ℚ) : List CarInput :=
  updateCarWith cars i fun c => { c with miscellaneous := v }

/-- `updateCar(i, 'maintenanceAtEnd', v)`. -/
def setMaintenanceAtEnd (cars : List CarInput) (i : ℕ) (v : ℚ) :
    List CarInput :=
  updateCarWith cars i fun c => { c with maintenanceAtEnd := v }

/-! ## Reachable session states

One constructor per user interaction of the component.  Every handler lives
inside `cars.map`, so the index of the affected card is in range; the Remove
button is rendered only when `cars.length > 1` (the guard at
`src/app/page.tsx:209`), which is the side condition of `remove`.  The custom
fuel-consumption input is rendered only when the card's fuel mode is
`custom`.  Edited numeric values are quantified over all of `ℚ`, covering
every finite number the input layer can deliver. -/
inductive Reachable : List CarInput → Prop where
  | init : Reachable [defaultCar 0]
  | add {cars} : Reachable cars → Reachable (addCar cars)
  | remove {cars i} : Reachable cars → 1 < cars.length → i < cars.length →
      Reachable (removeCar cars i)
  | powertrain {cars i pt} : Reachable cars → i < cars.length →
      Reachable (selectPowertrain cars i pt)
  | fuelMode {cars i m} : Reachable cars → i < cars.length →
      Reachable (selectFuelMode cars i m)
  | fuelPrice {cars i v} : Reachable cars → i < cars.length →
      Reachable (setFuelPrice cars i v)
  | fuelConsumption {cars i v} : Reachable cars → i < cars.length →
      cars[i]?.map CarInput.fuelMode = some FuelMode.custom →
      Reachable (setFuelConsumption cars i v)
  | name {cars i v} : Reachable cars → i < cars.length →
      Reachable (setName cars i v)
  | carPrice {cars i v} : Reachable cars → i < cars.length →
      Reachable (setCarPrice cars i v)
  | discount {cars i v} : Reachable cars → i < cars.length →
      Reachable (setDiscount cars i v)
  | otherDiscount {cars i v} : Reachable cars → i < cars.length →
      Reachable (setOtherDiscount cars i v)
  | resalePct {cars i v} : Reachable cars → i < cars.length →
      Reachable (setResalePct cars i v)
  | kmPerYear {cars i v} : Reachable cars → i < cars.length →
      Reachable (setKmPerYear cars i v)
  | years {cars i v} : Reachable cars → i < cars.length →
      Reachable (setYears cars i v)
  | insurance {cars i v} : Reachable cars → i < cars.length →
      Reachable (setInsurance cars i v)
  | maintenance {cars i v} : Reachable cars → i < cars.length →
      Reachable (setMaintenance cars i v)
  | registration {cars i v} : Reachable cars → i < cars.length →
      Reachable (setRegistration cars i v)
  | miscellaneous {cars i v} : Reachable cars → i < cars.length →
      Reachable (setMiscellaneous cars i v)
  | maintenanceAtEnd {cars i v} : Reachable cars → i < cars.length →
      Reachable (setMaintenanceAtEnd cars i v)

/-- The §3 invariant: the cached `fuelPerKm` equals the fuel-cost formula
applied to the record's current `powertrain`, `fuelPrice`, `fuelConsumption`. -/
def FuelInv (car : CarInput) : Prop :=
  car.fuelPerKm = calcFuelPerKm car.powertrain car.fuelPrice car.fuelConsumption

/-! ## Numeric input parsing (`parseInput`)

`parseInput` calls the ECMAScript library function `parseFloat`, which is not
part of this repository, so its decimal-literal semantics are embedded here:
skip leading white space, read an optional sign, then the longest prefix that
is a decimal literal (digits, an optional fraction, an optional exponent) or
the literal `Infinity`; if no prefix parses, the result is `NaN`. -/

/-- The digits of `ds` read as a natural number (most significant first). -/
def digitsToNat (ds : List Char) : ℕ :=
  ds.foldl (fun a c => 10 * a + (c.toNat - 48)) 0

/-- Split a character list into its longest prefix of decimal digits and the
rest. -/
def takeDigits : List Char → List Char × List Char
  | [] => ([], [])
  | c :: cs =>
      if c.isDigit then
        let p := takeDigits cs
        (c :: p.1, p.2)
      else ([], c :: cs)

/-- Whether the list starts with the literal `Infinity`. -/
def startsWithInfinity : List Char → Bool
  | 'I' :: 'n' :: 'f' :: 'i' :: 'n' :: 'i' :: 't' :: 'y' :: _ => true
  | _ => false

/-- Parse the longest unsigned decimal-literal prefix:
`digits [. digits] [e|E [+|-] digits]` (at least one digit before or after the
point; the exponent only counts when it has at least one digit). -/
def parseDecimal (cs : List Char) : Option ℚ :=
  let ip := takeDigits cs
  let intD := ip.1
  let fp :=
    match ip.2 with
    | '.' :: rest => takeDigits rest
    | r => ([], r)
  let fracD := fp.1
  if intD = [] ∧ fracD = [] then none
  else
    let mantissa : ℚ :=
      (digitsToNat intD : ℚ) + (digitsToNat fracD : ℚ) / 10 ^ fracD.length
    let expPart : ℤ :=
      match fp.2 with
      | 'e' :: '+' :: rest => (digitsToNat (takeDigits rest).1 : ℤ)
      | 'e' :: '-' :: rest =>
          if (takeDigits rest).1 = [] then 0
          else -(digitsToNat (takeDigits rest).1 : ℤ)
      | 'e' :: rest => (digitsToNat (takeDigits rest).1 : ℤ)
      | 'E' :: '+' :: rest => (digitsToNat (takeDigits rest).1 : ℤ)
      | 'E' :: '-' :: rest =>
          if (takeDigits rest).1 = [] then 0
          else -(digitsToNat (takeDigits rest).1 : ℤ)
      | 'E' :: rest => (digitsToNat (takeDigits rest).1 : ℤ)
      | _ => 0
    some (mantissa * (10 : ℚ) ^ expPart)

/-- The unsigned part of `parseFloat`, after white space and sign handling. -/
def parseFloatUnsigned (cs : List Char) (negSign : Bool) : JsVal :=
  if startsWithInfinity cs then
    if negSign then JsVal.negInf else JsVal.inf
  else
    match parseDecimal cs with
    | some q => JsVal.num (if negSign then -q else q)
    | none => JsVal.nan

/-- ECMAScript `parseFloat` on the decimal inputs this program can receive. -/
def jsParseFloat (s : String) : JsVal :=
  let cs := s.data.dropWhile fun c =>
    c == ' ' || c == '\t' || c == '\n' || c == '\r'
  match cs with
  | '+' :: rest => parseFloatUnsigned rest false
  | '-' :: rest => parseFloatUnsigned rest true
  | rest => parseFloatUnsigned rest false

/-- `s.replace(/,/g, '')`: drop every comma. -/
def stripCommas (s : String) : String :=
  String.mk (s.data.filter fun c => c != ',')

/-- `parseInput(s) = parseFloat(s.replace(/,/g, '')) || 0`: the JavaScript
`|| 0` replaces a falsy parse result (`NaN`, `0`, `-0`) by `0`. -/
def parseInput (s : String) : JsVal :=
  match jsParseFloat (stripCommas s) with
  | JsVal.nan => JsVal.num 0
  | JsVal.num q => if q = 0 then JsVal.num 0 else JsVal.num q
  | v => v

/-! ## Theorems -/

/-- C1: for every vehicle profile record (with a finite cached `fuelPerKm`,
the only kind the claim's real-arithmetic formulas speak about), `calculate`
returns exactly `netCarPrice = carPrice - discount - otherDiscount`,
`fuelPerYear = fuelPerKm * kmPerYear`,
`yearlyCost = insurance + maintenance + registration + miscellaneous +
fuelPerYear`, `resaleValue = carPrice * (resalePct / 100)` and
`totalCost = netCarPrice + yearlyCost * years + maintenanceAtEnd -
resaleValue`; this holds for all inputs, including when the discounts exceed
`carPrice` (`netCarPrice` may be negative and is not clamped). -/
theorem c1_calculate_formulas (car : CarInput) (q : ℚ)
    (h : car.fuelPerKm = JsVal.num q) :
    calculate car =
      { netCarPrice := car.carPrice - car.discount - car.otherDiscount,
        fuelPerYear := JsVal.num (q * car.kmPerYear),
        yearlyCost := JsVal.num
          (car.insurance + car.maintenance + car.registration +
            car.miscellaneous + q * car.kmPerYear),
        resaleValue := car.carPrice * (car.resalePct / 100),
        totalCost := JsVal.num
          ((car.carPrice - car.discount - car.otherDiscount) +
            (car.insurance + car.maintenance + car.registration +
              car.miscellaneous + q * car.kmPerYear) * car.years +
            car.maintenanceAtEnd -
            car.carPrice * (car.resalePct / 100)) } := by
  simp only [calculate, h, JsVal.mul, JsVal.add, JsVal.sub, JsVal.neg,
    DerivedResult.mk.injEq, JsVal.num.injEq, true_and, and_true]
  ring_nf
  try exact ⟨rfl, rfl, rfl, rfl, rfl⟩

/-- C1 witness: the spec's end-to-end scenario (carPrice 1,000,000, ICE
defaults, `fuelPerKm = 2.2` entered directly) gives `fuelPerYear = 44,000`,
`yearlyCost = 76,500`, `resaleValue = 300,000`, `totalCost = 1,465,000`. -/
theorem c1_calculate_formulas_witness :
    calculate
        { name := "Car 1", powertrain := Powertrain.ICE, carPrice := 1000000,
          discount := 0, otherDiscount := 0, resalePct := 30,
          kmPerYear := 20000, years := 10, insurance := 22000,
          maintenance := 8000, maintenanceAtEnd := 0, registration := 2500,
          miscellaneous := 0, fuelMode := FuelMode.custom,
          fuelConsumption := 14, fuelPrice := 30,
          fuelPerKm := JsVal.num (11 / 5) } =
      { netCarPrice := 1000000, fuelPerYear := JsVal.num 44000,
        yearlyCost := JsVal.num 76500, resaleValue := 300000,
        totalCost := JsVal.num 1465000 } := by
  rw [c1_calculate_formulas _ (11 / 5) rfl]
  simp only [DerivedResult.mk.injEq, JsVal.num.injEq]
  norm_num

/-- C2 (code bug): the combustion branch of `calcFuelPerKm` performs the
unguarded JavaScript division `fuelPrice / fuelConsumption`, so with
`fuelConsumption = 0` it yields `Infinity` — not the guarded `0` that the
claim (and §4.2/§7 of the spec) requires. -/
theorem c2_division_by_zero_unguarded :
    calcFuelPerKm Powertrain.ICE 30 0 = JsVal.inf ∧
    calcFuelPerKm Powertrain.Hybrid 30 0 = JsVal.inf ∧
    JsVal.inf ≠ JsVal.num 0 := by
  refine ⟨rfl, rfl, by decide⟩

/-- C7: `parseInput` strips comma grouping separators and converts the
remainder with `parseFloat`; any input whose parse fails coerces silently to
zero; `"1,000,000"` parses to `1000000`, and `""` and `"abc"` parse to `0`. -/
theorem c7_parseInput_comma_and_zero :
    (∀ s : String,
      jsParseFloat (stripCommas s) = JsVal.nan → parseInput s = JsVal.num 0) ∧
    parseInput "1,000,000" = JsVal.num 1000000 ∧
    parseInput "" = JsVal.num 0 ∧
    parseInput "abc" = JsVal.num 0 := by
  refine ⟨fun s h => ?_, ?_, rfl, rfl⟩
  · simp [parseInput, h]
  · simp [parseInput, stripCommas, jsParseFloat, parseFloatUnsigned,
      startsWithInfinity, parseDecimal, takeDigits, digitsToNat, Char.isDigit]

/-- C7 witness: a concrete unparseable input handled by the general part. -/
theorem c7_parseInput_comma_and_zero_witness :
    parseInput "xyz" = JsVal.num 0 :=
  c7_parseInput_comma_and_zero.1 "xyz" rfl

/-- C10: a valid numeric prefix with trailing junk is kept (`"12abc"` parses
to `12`, not `0`), and `parseInput` returns `0` only when the underlying
`parseFloat` result is `NaN` or `0` — not for every input containing stray
characters. -/
theorem c10_parseInput_numeric_prefix :
    parseInput "12abc" = JsVal.num 12 ∧
    ∀ s : String, parseInput s = JsVal.num 0 →
      jsParseFloat (stripCommas s) = JsVal.nan ∨
      jsParseFloat (stripCommas s) = JsVal.num 0 := by
  constructor
  · simp [parseInput, stripCommas, jsParseFloat, parseFloatUnsigned,
      startsWithInfinity, parseDecimal, takeDigits, digitsToNat, Char.isDigit]
  · intro s h
    unfold parseInput at h
    cases hv : jsParseFloat (stripCommas s) with
    | nan => exact Or.inl rfl
    | num q =>
        rw [hv] at h
        have h' : (if q = 0 then JsVal.num 0 else JsVal.num q) = JsVal.num 0 := h
        by_cases hq : q = 0
        · exact Or.inr (by rw [hq])
        · rw [if_neg hq] at h'
          exact absurd (JsVal.num.inj h') hq
    | inf => rw [hv] at h; exact JsVal.noConfusion h
    | negInf => rw [hv] at h; exact JsVal.noConfusion h

/-- C10 witness: the string `"0"` parses to `0`, and the theorem places it in
the `parseFloat`-result-is-`0` case. -/
theorem c10_parseInput_numeric_prefix_witness :
    jsParseFloat (stripCommas "0") = JsVal.nan ∨
    jsParseFloat (stripCommas "0") = JsVal.num 0 :=
  c10_parseInput_numeric_prefix.2 "0"
    (by simp [parseInput, stripCommas, jsParseFloat, parseFloatUnsigned,
      startsWithInfinity, parseDecimal, takeDigits, digitsToNat, Char.isDigit])

/-- C8: for an EV powertrain, `calcFuelPerKm` interprets the consumption as
kWh per 100 km and returns `(fuelConsumption / 100) * fuelPrice` for all
consumption and price values; in particular consumption 15 at price 5 gives
0.75. -/
theorem c8_ev_fuel_formula :
    (∀ fuelPrice fuelConsumption : ℚ,
      calcFuelPerKm Powertrain.EV fuelPrice fuelConsumption =
        JsVal.num ((fuelConsumption / 100) * fuelPrice)) ∧
    calcFuelPerKm Powertrain.EV 5 15 = JsVal.num (3 / 4) := by
  refine ⟨fun _ _ => rfl, by norm_num [calcFuelPerKm]⟩

/-! ## Store lemmas -/

/-- Copy-and-replace at an index never changes the length. -/
lemma length_updateCarWith (cars : List CarInput) (i : ℕ)
    (f : CarInput → CarInput) :
    (updateCarWith cars i f).length = cars.length := by
  unfold updateCarWith
  cases hg : cars[i]? with
  | none => rfl
  | some c => exact List.length_set cars i (f c)

/-- If the per-record update preserves the fuel invariant, so does the
copy-and-replace store update. -/
lemma fuelInv_updateCarWith {cars : List CarInput} {i : ℕ}
    {f : CarInput → CarInput} (hf : ∀ c, FuelInv c → FuelInv (f c))
    (h : ∀ c ∈ cars, FuelInv c) :
    ∀ c ∈ updateCarWith cars i f, FuelInv c := by
  intro c hc
  unfold updateCarWith at hc
  split at hc
  next d hg =>
    rcases List.mem_or_eq_of_mem_set hc with h1 | rfl
    · exact h c h1
    · exact hf d (h d (List.getElem?_mem hg))
  next hg => exact h c hc

/-- Every record surviving the index filter was in the original list. -/
lemma mem_of_mem_filterIdxNe :
    ∀ (cs : List CarInput) (j index : ℕ) (c : CarInput),
      c ∈ filterIdxNe cs j index → c ∈ cs := by
  intro cs
  induction cs with
  | nil => intro j index c hc; simp [filterIdxNe] at hc
  | cons d ds ih =>
      intro j index c hc
      unfold filterIdxNe at hc
      split at hc
      · exact List.mem_cons_of_mem d (ih _ _ _ hc)
      · rcases List.mem_cons.mp hc with rfl | h2
        · exact List.mem_cons_self c ds
        · exact List.mem_cons_of_mem d (ih _ _ _ h2)

/-- Once the running counter has passed the index, the filter keeps
everything. -/
lemma filterIdxNe_of_lt :
    ∀ (cs : List CarInput) (j index : ℕ), index < j →
      filterIdxNe cs j index = cs := by
  intro cs
  induction cs with
  | nil => intro j index h; rfl
  | cons d ds ih =>
      intro j index h
      unfold filterIdxNe
      rw [if_neg (by omega), ih (j + 1) index (by omega)]

/-- The index filter removes at most one record. -/
lemma length_filterIdxNe :
    ∀ (cs : List CarInput) (j index : ℕ),
      cs.length ≤ (filterIdxNe cs j index).length + 1 := by
  intro cs
  induction cs with
  | nil => intro j index; simp [filterIdxNe]
  | cons d ds ih =>
      intro j index
      unfold filterIdxNe
      split
      next hj =>
        rw [filterIdxNe_of_lt ds (j + 1) index (by omega)]
        simp
      next hj =>
        have := ih (j + 1) index
        simp only [List.length_cons]
        omega

/-- C3: selecting a powertrain `pt` on the profile at index `i` is a single
bulk update that (a) overwrites the six preset cost fields with the `pt`
preset's values, (b) sets the default fuel price `pt === 'EV' ? 5 : 30`,
which is lower for EV than for either combustion powertrain, (c) resolves
consumption from the current fuel mode and the new powertrain, and (d) sets
`fuelPerKm` to the fuel-cost formula on the new powertrain, fuel price and
consumption — the post-state record is exactly `applyPowertrain pt car`, so
no fuel assumption of the previous powertrain survives. -/
theorem c3_powertrain_selection (cars : List CarInput) (i : ℕ)
    (pt : Powertrain) (hi : i < cars.length) :
    ∃ car, cars[i]? = some car ∧
      (selectPowertrain cars i pt)[i]? = some (applyPowertrain pt car) ∧
      (applyPowertrain pt car).powertrain = pt ∧
      (applyPowertrain pt car).insurance = (PRESETS pt).insurance ∧
      (applyPowertrain pt car).maintenance = (PRESETS pt).maintenance ∧
      (applyPowertrain pt car).registration = (PRESETS pt).registration ∧
      (applyPowertrain pt car).resalePct = (PRESETS pt).resalePct ∧
      (applyPowertrain pt car).miscellaneous = (PRESETS pt).miscellaneous ∧
      (applyPowertrain pt car).maintenanceAtEnd =
        (PRESETS pt).maintenanceAtEnd ∧
      (applyPowertrain pt car).fuelPrice =
        (if pt = Powertrain.EV then 5 else 30) ∧
      (applyPowertrain Powertrain.EV car).fuelPrice <
        (applyPowertrain Powertrain.ICE car).fuelPrice ∧
      (applyPowertrain Powertrain.EV car).fuelPrice <
        (applyPowertrain Powertrain.Hybrid car).fuelPrice ∧
      (applyPowertrain pt car).fuelConsumption =
        FUEL_CONSUMPTION_PRESET car.fuelMode pt ∧
      (applyPowertrain pt car).fuelPerKm =
        calcFuelPerKm (applyPowertrain pt car).powertrain
          (applyPowertrain pt car).fuelPrice
          (applyPowertrain pt car).fuelConsumption := by
  refine ⟨cars[i], List.getElem?_eq_getElem hi, ?_, rfl, rfl, rfl, rfl, rfl,
    rfl, rfl, rfl, ?_, ?_, rfl, rfl⟩
  · simp only [selectPowertrain, updateCarWith, List.getElem?_eq_getElem hi]
    exact List.getElem?_set_eq_of_lt _ (by simpa using hi)
  · show (5 : ℚ) < 30
    norm_num
  · show (5 : ℚ) < 30
    norm_num

/-- C3 witness: switching the single default (ICE) profile to EV. -/
theorem c3_powertrain_selection_witness :
    ∃ car, ([defaultCar 0] : List CarInput)[0]? = some car ∧
      (selectPowertrain [defaultCar 0] 0 Powertrain.EV)[0]? =
        some (applyPowertrain Powertrain.EV car) ∧
      (applyPowertrain Powertrain.EV car).powertrain = Powertrain.EV ∧
      (applyPowertrain Powertrain.EV car).insurance =
        (PRESETS Powertrain.EV).insurance ∧
      (applyPowertrain Powertrain.EV car).maintenance =
        (PRESETS Powertrain.EV).maintenance ∧
      (applyPowertrain Powertrain.EV car).registration =
        (PRESETS Powertrain.EV).registration ∧
      (applyPowertrain Powertrain.EV car).resalePct =
        (PRESETS Powertrain.EV).resalePct ∧
      (applyPowertrain Powertrain.EV car).miscellaneous =
        (PRESETS Powertrain.EV).miscellaneous ∧
      (applyPowertrain Powertrain.EV car).maintenanceAtEnd =
        (PRESETS Powertrain.EV).maintenanceAtEnd ∧
      (applyPowertrain Powertrain.EV car).fuelPrice =
        (if Powertrain.EV = Powertrain.EV then 5 else 30) ∧
      (applyPowertrain Powertrain.EV car).fuelPrice <
        (applyPowertrain Powertrain.ICE car).fuelPrice ∧
      (applyPowertrain Powertrain.EV car).fuelPrice <
        (applyPowertrain Powertrain.Hybrid car).fuelPrice ∧
      (applyPowertrain Powertrain.EV car).fuelConsumption =
        FUEL_CONSUMPTION_PRESET car.fuelMode Powertrain.EV ∧
      (applyPowertrain Powertrain.EV car).fuelPerKm =
        calcFuelPerKm (applyPowertrain Powertrain.EV car).powertrain
          (applyPowertrain Powertrain.EV car).fuelPrice
          (applyPowertrain Powertrain.EV car).fuelConsumption :=
  c3_powertrain_selection [defaultCar 0] 0 Powertrain.EV (by decide)

/-- C5 amended: selecting a fuel mode resolves the consumption from the
`(mode, current powertrain)` preset pair for every mode — including
`"custom"`, whose preset row (ICE 14, Hybrid 20, EV 12) replaces any
previously entered value — and recomputes `fuelPerKm` from the resulting
consumption. -/
theorem c5_fuel_mode_selection_amended (cars : List CarInput) (i : ℕ)
    (mode : FuelMode) (hi : i < cars.length) :
    ∃ car, cars[i]? = some car ∧
      (selectFuelMode cars i mode)[i]? = some (applyFuelMode mode car) ∧
      (applyFuelMode mode car).fuelMode = mode ∧
      (applyFuelMode mode car).fuelConsumption =
        FUEL_CONSUMPTION_PRESET mode car.powertrain ∧
      (applyFuelMode mode car).fuelPerKm =
        calcFuelPerKm car.powertrain car.fuelPrice
          (FUEL_CONSUMPTION_PRESET mode car.powertrain) := by
  refine ⟨cars[i], List.getElem?_eq_getElem hi, ?_, rfl, rfl, rfl⟩
  simp only [selectFuelMode, updateCarWith, List.getElem?_eq_getElem hi]
  exact List.getElem?_set_eq_of_lt _ (by simpa using hi)

/-- C5 amended witness: selecting the city mode on the default profile. -/
theorem c5_fuel_mode_selection_amended_witness :
    ∃ car, ([defaultCar 0] : List CarInput)[0]? = some car ∧
      (selectFuelMode [defaultCar 0] 0 FuelMode.city)[0]? =
        some (applyFuelMode FuelMode.city car) ∧
      (applyFuelMode FuelMode.city car).fuelMode = FuelMode.city ∧
      (applyFuelMode FuelMode.city car).fuelConsumption =
        FUEL_CONSUMPTION_PRESET FuelMode.city car.powertrain ∧
      (applyFuelMode FuelMode.city car).fuelPerKm =
        calcFuelPerKm car.powertrain car.fuelPrice
          (FUEL_CONSUMPTION_PRESET FuelMode.city car.powertrain) :=
  c5_fuel_mode_selection_amended [defaultCar 0] 0 FuelMode.city (by decide)

/-- An ICE profile whose consumption was manually set to 5 km/L. -/
def c5car : CarInput :=
  { defaultCar 0 with
    fuelConsumption := 5,
    fuelPerKm := calcFuelPerKm Powertrain.ICE 30 5 }

/-- C5 counterexample: on a `custom`-mode ICE profile with a manually entered
consumption of 5, selecting `"custom"` again does **not** keep the existing
value — the handler overwrites it with the custom-preset default 14. -/
theorem c5_custom_mode_counterexample :
    c5car.fuelMode = FuelMode.custom ∧
    (selectFuelMode [c5car] 0 FuelMode.custom)[0]? =
      some (applyFuelMode FuelMode.custom c5car) ∧
    (applyFuelMode FuelMode.custom c5car).fuelConsumption ≠
      c5car.fuelConsumption ∧
    (applyFuelMode FuelMode.custom c5car).fuelConsumption = 14 ∧
    c5car.fuelConsumption = 5 := by
  refine ⟨rfl, rfl, ?_, rfl, rfl⟩
  show (14 : ℚ) ≠ 5
  norm_num

/-- C9: any copy-and-replace update (the pattern of both `updateCar` and
`updateCarBulk`) applied at index `i` leaves the profile at every other
position `j` unchanged. -/
theorem c9_update_frame (cars : List CarInput) (i j : ℕ)
    (f : CarInput → CarInput) (hne : j ≠ i) :
    (updateCarWith cars i f)[j]? = cars[j]? := by
  unfold updateCarWith
  cases hg : cars[i]? with
  | none => rfl
  | some c => exact List.getElem?_set_ne (Ne.symm hne)

/-- C9 witness: clearing the price of the first of two profiles leaves the
second untouched. -/
theorem c9_update_frame_witness :
    (updateCarWith [defaultCar 0, defaultCar 1] 0
        (fun c => { c with carPrice := 0 }))[1]? =
      ([defaultCar 0, defaultCar 1] : List CarInput)[1]? :=
  c9_update_frame [defaultCar 0, defaultCar 1] 0 1
    (fun c => { c with carPrice := 0 }) (by decide)

/-- C4: in every reachable session state — the initial default profile and
the result of any sequence of add, remove, powertrain selection, fuel-mode
selection, fuel-price edit, fuel-consumption edit or other field edits —
every profile's cached `fuelPerKm` equals the fuel-cost formula applied to
its current `powertrain`, `fuelPrice` and `fuelConsumption`. -/
theorem c4_fuelPerKm_invariant (cars : List CarInput) (h : Reachable cars) :
    ∀ car ∈ cars, car.fuelPerKm =
      calcFuelPerKm car.powertrain car.fuelPrice car.fuelConsumption := by
  induction h with
  | init =>
      intro car hc
      rcases List.mem_singleton.mp hc with rfl
      rfl
  | add h ih =>
      intro car hc
      rcases List.mem_append.mp hc with h1 | h2
      · exact ih car h1
      · rcases List.mem_singleton.mp h2 with rfl
        rfl
  | @remove cs i h h1 h2 ih =>
      intro car hc
      exact ih car (mem_of_mem_filterIdxNe cs 0 i car hc)
  | powertrain h hi ih => exact fuelInv_updateCarWith (fun c _ => rfl) ih
  | fuelMode h hi ih => exact fuelInv_updateCarWith (fun c _ => rfl) ih
  | fuelPrice h hi ih => exact fuelInv_updateCarWith (fun c _ => rfl) ih
  | fuelConsumption h hi hm ih =>
      exact fuelInv_updateCarWith (fun c _ => rfl) ih
  | name h hi ih => exact fuelInv_updateCarWith (fun c hc => hc) ih
  | carPrice h hi ih => exact fuelInv_updateCarWith (fun c hc => hc) ih
  | discount h hi ih => exact fuelInv_updateCarWith (fun c hc => hc) ih
  | otherDiscount h hi ih => exact fuelInv_updateCarWith (fun c hc => hc) ih
  | resalePct h hi ih => exact fuelInv_updateCarWith (fun c hc => hc) ih
  | kmPerYear h hi ih => exact fuelInv_updateCarWith (fun c hc => hc) ih
  | years h hi ih => exact fuelInv_updateCarWith (fun c hc => hc) ih
  | insurance h hi ih => exact fuelInv_updateCarWith (fun c hc => hc) ih
  | maintenance h hi ih => exact fuelInv_updateCarWith (fun c hc => hc) ih
  | registration h hi ih => exact fuelInv_updateCarWith (fun c hc => hc) ih
  | miscellaneous h hi ih => exact fuelInv_updateCarWith (fun c hc => hc) ih
  | maintenanceAtEnd h hi ih => exact fuelInv_updateCarWith (fun c hc => hc) ih

/-- C4 witness: the invariant instantiated at the initial session state. -/
theorem c4_fuelPerKm_invariant_witness :
    (defaultCar 0).fuelPerKm =
      calcFuelPerKm (defaultCar 0).powertrain (defaultCar 0).fuelPrice
        (defaultCar 0).fuelConsumption :=
  c4_fuelPerKm_invariant [defaultCar 0] Reachable.init (defaultCar 0)
    (List.mem_singleton.mpr rfl)

/-- C6: every reachable session state holds at least one profile — removal
is only possible through the Remove button, which exists only while more
than one profile is present, so the collection never becomes empty. -/
theorem c6_collection_nonempty (cars : List CarInput) (h : Reachable cars) :
    1 ≤ cars.length := by
  induction h with
  | init => exact Nat.le.refl
  | add h ih =>
      simp only [addCar, List.length_append, List.length_singleton]
      omega
  | @remove cs i h h1 h2 ih =>
      have h3 := length_filterIdxNe cs 0 i
      unfold removeCar
      omega
  | powertrain h hi ih =>
      simpa [selectPowertrain, length_updateCarWith] using ih
  | fuelMode h hi ih => simpa [selectFuelMode, length_updateCarWith] using ih
  | fuelPrice h hi ih => simpa [setFuelPrice, length_updateCarWith] using ih
  | fuelConsumption h hi hm ih =>
      simpa [setFuelConsumption, length_updateCarWith] using ih
  | name h hi ih => simpa [setName, length_updateCarWith] using ih
  | carPrice h hi ih => simpa [setCarPrice, length_updateCarWith] using ih
  | discount h hi ih => simpa [setDiscount, length_updateCarWith] using ih
  | otherDiscount h hi ih =>
      simpa [setOtherDiscount, length_updateCarWith] using ih
  | resalePct h hi ih => simpa [setResalePct, length_updateCarWith] using ih
  | kmPerYear h hi ih => simpa [setKmPerYear, length_updateCarWith] using ih
  | years h hi ih => simpa [setYears, length_updateCarWith] using ih
  | insurance h hi ih => simpa [setInsurance, length_updateCarWith] using ih
  | maintenance h hi ih =>
      simpa [setMaintenance, length_updateCarWith] using ih
  | registration h hi ih =>
      simpa [setRegistration, length_updateCarWith] using ih
  | miscellaneous h hi ih =>
      simpa [setMiscellaneous, length_updateCarWith] using ih
  | maintenanceAtEnd h hi ih =>
      simpa [setMaintenanceAtEnd, length_updateCarWith] using ih

/-- C6 witness: the non-emptiness instantiated at the initial state. -/
theorem c6_collection_nonempty_witness :
    1 ≤ ([defaultCar 0] : List CarInput).length :=
  c6_collection_nonempty [defaultCar 0] Reachable.init
